import Mathlib

/-!
Verification of the disk-volume utility core of the Alibaba Cloud CSI
plugin (`pkg/disk/utils.go`): credential resolution, instance-metadata
lookup, ECS client refresh, volume-option parsing and the device mount
counter.  External effects (environment variables, the metadata HTTP
endpoint, the metadata SDK, shell commands) are passed in explicitly as
behaviour functions, so every Go function becomes a pure Lean function
of the code's inputs plus the behaviour of its effectful collaborators.
-/

set_option autoImplicit false

namespace CsiDisk

/-! ## Constants (from the `const` block of utils.go) -/

def METADATA_URL : String := "http://100.100.100.200/latest/meta-data/"

def REGIONID_TAG : String := "region-id"

def ZONEID_TAG : String := "zone-id"

def DISK_HIGH_AVAIL : String := "available"

def DISK_COMMON : String := "cloud"

def DISK_EFFICIENCY : String := "cloud_efficiency"

def DISK_SSD : String := "cloud_ssd"

def DEFAULT_REGION : String := "cn-hangzhou"

/-! ## Go string/strconv library functions

The Go library calls the code makes (`strings.ToLower`,
`strings.TrimSuffix`, `strconv.Atoi` and the prefix test inside it) are
modelled at the level of the underlying character list. -/

/-- `strings.ToLower` (ASCII case mapping, the only range the parsed
option values exercise). -/
def strToLower (s : String) : String := ⟨s.data.map Char.toLower⟩

/-- `strings.HasSuffix`. -/
def hasSuffix (s tail : String) : Bool := tail.data.isSuffixOf s.data

/-- A digit-run parser: `some n` when the string is a non-empty run of
decimal digits, `none` otherwise (the unsigned half of `strconv.Atoi`). -/
def digitsToNat (s : String) : Option Nat :=
  if s.data ≠ [] ∧ s.data.all Char.isDigit then
    some (s.data.foldl (fun n c => n * 10 + (c.toNat - 48)) 0)
  else none

/-- Drop the first `n` characters (Go slicing `s[n:]`). -/
def strDrop (s : String) (n : Nat) : String := ⟨s.data.drop n⟩

/-! ## Instance metadata over HTTP (`GetMetaData`)

`http.Get` is modelled by a behaviour function returning `none` on a
transport-level failure and otherwise a response carrying its status
code and a body whose read can itself fail (`Body = none`). -/

/-- An HTTP response as `GetMetaData` sees it: the status code and the
result of reading the body (`none` when the read fails). -/
structure HttpResp where
  StatusCode : Nat
  Body : Option String
  deriving Repr, DecidableEq

/-- Behaviour of `http.Get`: `none` models a network-level error. -/
abbrev HttpGet := String → Option HttpResp

/-- `GetMetaData` from utils.go: fetch `METADATA_URL ++ resource`; empty
string when the GET errors or the body read errors, otherwise the body.
The status code is never inspected. -/
def GetMetaData (httpGet : HttpGet) (resource : String) : String :=
  match httpGet (METADATA_URL ++ resource) with
  | none => ""
  | some resp =>
    match resp.Body with
    | none => ""
    | some body => body

/-! ## Credential resolution (`GetLocalAK`, `GetSTSAK`, `GetDefaultAK`)

The environment is a total function (Go's `os.Getenv` returns `""` for
an unset variable); the metadata SDK is a record of the two calls the
code makes, each fallible. -/

/-- The fields of the SDK's `RamRoleToken` result that the code reads. -/
structure RoleAuth where
  AccessKeyId : String
  AccessKeySecret : String
  SecurityToken : String
  deriving Repr, DecidableEq

/-- Behaviour of the metadata SDK: `Role()` and `RamRoleToken(name)`,
each returning `none` on failure. -/
structure MetaSvc where
  role : Option String
  ramRoleToken : String → Option RoleAuth

/-- `GetLocalAK` from utils.go: read `ACCESS_KEY_ID` / `ACCESS_KEY_SECRET`
from the environment.  Both branches of the source's `if` return the
same pair; the structure is kept. -/
def GetLocalAK (env : String → String) : String × String :=
  let accessKeyID := env "ACCESS_KEY_ID"
  let accessSecret := env "ACCESS_KEY_SECRET"
  if accessKeyID ≠ "" ∧ accessSecret ≠ "" then
    (accessKeyID, accessSecret)
  else
    (accessKeyID, accessSecret)

/-- `GetSTSAK` from utils.go: ask the metadata SDK for a role name, then
for a role token; any failure yields the empty triple. -/
def GetSTSAK (m : MetaSvc) : String × String × String :=
  match m.role with
  | none => ("", "", "")
  | some rolename =>
    match m.ramRoleToken rolename with
    | none => ("", "", "")
    | some role => (role.AccessKeyId, role.AccessKeySecret, role.SecurityToken)

/-- `GetDefaultAK` from utils.go: environment keys first (empty token);
if either is empty, fall through to the STS triple. -/
def GetDefaultAK (env : String → String) (m : MetaSvc) : String × String × String :=
  let local_ := GetLocalAK env
  let accessKeyID := local_.1
  let accessSecret := local_.2
  if accessKeyID = "" ∨ accessSecret = "" then
    GetSTSAK m
  else
    (accessKeyID, accessSecret, "")

/-! ## ECS client construction and refresh (`newEcsClient`, `updateEcsClent`) -/

/-- The ECS client as the code observes it: the region and credentials it
was constructed with (`STSToken = ""` for a static-key client). -/
structure EcsClient where
  RegionId : String
  AccessKeyId : String
  AccessKeySecret : String
  STSToken : String
  deriving Repr, DecidableEq

/-- `newEcsClient` from utils.go: a static-key client when the token is
empty, an STS client otherwise (`none` models the SDK constructor's nil
return on error; the constructors only record their arguments). -/
def newEcsClient (access_key_id access_key_secret access_token : String) :
    Option EcsClient :=
  if access_token = "" then
    some ⟨DEFAULT_REGION, access_key_id, access_key_secret, ""⟩
  else
    some ⟨DEFAULT_REGION, access_key_id, access_key_secret, access_token⟩

/-- `updateEcsClent` from utils.go: re-resolve credentials and rebuild
the client only when the resolved token is non-empty. -/
def updateEcsClent (env : String → String) (m : MetaSvc)
    (client : Option EcsClient) : Option EcsClient :=
  let ak := GetDefaultAK env m
  let accessKeyID := ak.1
  let accessSecret := ak.2.1
  let accessToken := ak.2.2
  if accessToken ≠ "" then
    newEcsClient accessKeyID accessSecret accessToken
  else
    client

/-! ## Volume option parsing (`getDiskVolumeOptions`) -/

/-- The `diskVolumeArgs` struct as used by `getDiskVolumeOptions`
(the Go field `Type` is spelled `DiskType`, `Type` being reserved). -/
structure diskVolumeArgs where
  ZoneId : String
  RegionId : String
  FsType : String
  DiskType : String
  ReadOnly : Bool
  Encrypted : Bool
  deriving Repr, DecidableEq

/-- The boolean-option block of `getDiskVolumeOptions`, written out once
and used for both `readOnly` and `encrypted`: absent means `false`,
present means lowercase and compare against `yes`/`true`/`1`. -/
def parseFlag (v : Option String) : Bool :=
  match v with
  | none => false
  | some value =>
    let value := strToLower value
    if value = "yes" ∨ value = "true" ∨ value = "1" then true else false

/-- `getDiskVolumeOptions` from utils.go: zone/region from the options or
else instance metadata; fsType defaulting to `ext4` and restricted to
`ext4`/`ext3`; type defaulting to `available` and restricted to the four
categories; permissive boolean parsing of `readOnly`/`encrypted`. -/
def getDiskVolumeOptions (httpGet : HttpGet)
    (volOptions : String → Option String) : Except String diskVolumeArgs :=
  let zoneId := (volOptions "zoneId").getD (GetMetaData httpGet ZONEID_TAG)
  let regionId := (volOptions "regionId").getD (GetMetaData httpGet REGIONID_TAG)
  let fsType := (volOptions "fsType").getD "ext4"
  if fsType ≠ "ext4" ∧ fsType ≠ "ext3" then
    Except.error "illegal required parameter fsType"
  else
    let diskType := (volOptions "type").getD DISK_HIGH_AVAIL
    if diskType ≠ DISK_HIGH_AVAIL ∧ diskType ≠ DISK_COMMON ∧
        diskType ≠ DISK_EFFICIENCY ∧ diskType ≠ DISK_SSD then
      Except.error ("Illegal required parameter type" ++ diskType)
    else
      let readOnly := parseFlag (volOptions "readOnly")
      let encrypted := parseFlag (volOptions "encrypted")
      Except.ok ⟨zoneId, regionId, fsType, diskType, readOnly, encrypted⟩

/-! ## Device mount counting (`GetDeviceMountNum`, `run`, `strconv.Atoi`) -/

/-- `strings.TrimSuffix`: remove `tail` once from the end when present. -/
def trimSuffix (s tail : String) : String :=
  if hasSuffix s tail then ⟨s.data.take (s.data.length - tail.data.length)⟩ else s

/-- `strconv.Atoi`: optional sign, then a non-empty run of digits
consuming the whole string; `none` otherwise. -/
def Atoi (s : String) : Option Int :=
  if s.data.take 1 = ['-'] then
    (digitsToNat (strDrop s 1)).map (fun n => -(n : Int))
  else if s.data.take 1 = ['+'] then
    (digitsToNat (strDrop s 1)).map (fun n => (n : Int))
  else
    (digitsToNat s).map (fun n => (n : Int))

/-- The two shell commands `GetDeviceMountNum` formats: the device
listing for a target path and the mount count for a device string. -/
inductive ShellCmd where
  | listDeviceCmd (targetPath : String)
  | countMountCmd (device : String)
  deriving Repr, DecidableEq

/-- Behaviour of `run` (shelling out via `sh -c`): `none` is the error
return, `some out` the combined output. -/
abbrev Runner := ShellCmd → Option String

/-- `GetDeviceMountNum` from utils.go: list devices at the target path,
trim the trailing newline, count the mounts of that device, parse the
count; every failure returns 0.  (The second `TrimSuffix` in the source
re-trims the device string, not the count, and is kept as dead code.) -/
def GetDeviceMountNum (runCmd : Runner) (targetPath : String) : Int :=
  match runCmd (ShellCmd.listDeviceCmd targetPath) with
  | none => 0
  | some deviceCmdOut =>
    let deviceCmdOut := trimSuffix deviceCmdOut "\n"
    match runCmd (ShellCmd.countMountCmd deviceCmdOut) with
    | none => 0
    | some deviceNumOut =>
      let _ := trimSuffix deviceCmdOut "\n"
      match Atoi deviceNumOut with
      | none => 0
      | some num => num

/-! ## Canonical serialization (spec side, for the idempotence claim)

This definition follows the claim's words, not the source: it writes a
parsed `diskVolumeArgs` back to an options map with the six canonical
keys, booleans rendered `true`/`false`. -/

/-- Canonical options map of a parsed request, per the spec's idempotence
property. -/
def canonicalOptions (r : diskVolumeArgs) : String → Option String := fun k =>
  if k = "zoneId" then some r.ZoneId
  else if k = "regionId" then some r.RegionId
  else if k = "fsType" then some r.FsType
  else if k = "type" then some r.DiskType
  else if k = "readOnly" then some (if r.ReadOnly then "true" else "false")
  else if k = "encrypted" then some (if r.Encrypted then "true" else "false")
  else none

/-- Override one key of an options map (used to state that the parse
outcome does not depend on the boolean-option entries). -/
def updateKey (opts : String → Option String) (k v : String) : String → Option String :=
  fun q => if q = k then some v else opts q

/-! # Helper lemmas -/

theorem parseFlag_true_iff (v : Option String) :
    parseFlag v = true ↔
      ∃ s, v = some s ∧
        (strToLower s = "yes" ∨ strToLower s = "true" ∨ strToLower s = "1") := by
  cases v with
  | none => simp [parseFlag]
  | some s =>
    by_cases h : strToLower s = "yes" ∨ strToLower s = "true" ∨ strToLower s = "1"
    · simp only [parseFlag, if_pos h, Option.some.injEq]
      exact ⟨fun _ => ⟨s, rfl, h⟩, fun _ => trivial⟩
    · simp only [parseFlag, if_neg h, Option.some.injEq]
      constructor
      · intro hfalse; exact absurd hfalse (by simp)
      · rintro ⟨s2, rfl, hs2⟩
        exact absurd hs2 h

theorem parseFlag_roundtrip (b : Bool) :
    parseFlag (some (if b then "true" else "false")) = b := by
  cases b <;> decide

theorem getDiskVolumeOptions_ok_iff (g : HttpGet) (opts : String → Option String)
    (r : diskVolumeArgs) :
    getDiskVolumeOptions g opts = Except.ok r ↔
      (((opts "fsType").getD "ext4" = "ext4" ∨ (opts "fsType").getD "ext4" = "ext3") ∧
       ((opts "type").getD DISK_HIGH_AVAIL = DISK_HIGH_AVAIL ∨
        (opts "type").getD DISK_HIGH_AVAIL = DISK_COMMON ∨
        (opts "type").getD DISK_HIGH_AVAIL = DISK_EFFICIENCY ∨
        (opts "type").getD DISK_HIGH_AVAIL = DISK_SSD) ∧
       r = ⟨(opts "zoneId").getD (GetMetaData g ZONEID_TAG),
            (opts "regionId").getD (GetMetaData g REGIONID_TAG),
            (opts "fsType").getD "ext4",
            (opts "type").getD DISK_HIGH_AVAIL,
            parseFlag (opts "readOnly"),
            parseFlag (opts "encrypted")⟩) := by
  simp only [getDiskVolumeOptions]
  split
  · next hc =>
    constructor
    · intro h; exact absurd h (by simp)
    · rintro ⟨hf, -, -⟩
      rcases hf with hf | hf
      · exact absurd hf hc.1
      · exact absurd hf hc.2
  · next hc =>
    split
    · next hc2 =>
      constructor
      · intro h; exact absurd h (by simp)
      · rintro ⟨-, ht, -⟩
        rcases ht with ht | ht | ht | ht
        · exact absurd ht hc2.1
        · exact absurd ht hc2.2.1
        · exact absurd ht hc2.2.2.1
        · exact absurd ht hc2.2.2.2
    · next hc2 =>
      constructor
      · intro h
        simp only [Except.ok.injEq] at h
        refine ⟨?_, ?_, h.symm⟩
        · by_cases h4 : (opts "fsType").getD "ext4" = "ext4"
          · exact Or.inl h4
          · right
            by_contra h3
            exact hc ⟨h4, h3⟩
        · by_cases ha : (opts "type").getD DISK_HIGH_AVAIL = DISK_HIGH_AVAIL
          · exact Or.inl ha
          · by_cases hb : (opts "type").getD DISK_HIGH_AVAIL = DISK_COMMON
            · exact Or.inr (Or.inl hb)
            · by_cases he : (opts "type").getD DISK_HIGH_AVAIL = DISK_EFFICIENCY
              · exact Or.inr (Or.inr (Or.inl he))
              · refine Or.inr (Or.inr (Or.inr ?_))
                by_contra hs
                exact hc2 ⟨ha, hb, he, hs⟩
      · rintro ⟨-, -, rfl⟩
        rfl

theorem GetLocalAK_eq (env : String → String) :
    GetLocalAK env = (env "ACCESS_KEY_ID", env "ACCESS_KEY_SECRET") := by
  simp [GetLocalAK]

theorem GetDefaultAK_eq (env : String → String) (m : MetaSvc) :
    GetDefaultAK env m =
      if env "ACCESS_KEY_ID" = "" ∨ env "ACCESS_KEY_SECRET" = "" then GetSTSAK m
      else (env "ACCESS_KEY_ID", env "ACCESS_KEY_SECRET", "") := by
  simp [GetDefaultAK, GetLocalAK]

/-! # Claims -/

/-- C1: when both `ACCESS_KEY_ID` and `ACCESS_KEY_SECRET` are non-empty,
`GetDefaultAK` returns exactly those values with an empty session token,
whatever the metadata service would answer (so the STS path is never
consulted); when either is empty it returns the `GetSTSAK` triple. -/
theorem getDefaultAK_env_priority (env : String → String) (m : MetaSvc) :
    (env "ACCESS_KEY_ID" ≠ "" → env "ACCESS_KEY_SECRET" ≠ "" →
      GetDefaultAK env m = (env "ACCESS_KEY_ID", env "ACCESS_KEY_SECRET", "")) ∧
    ((env "ACCESS_KEY_ID" = "" ∨ env "ACCESS_KEY_SECRET" = "") →
      GetDefaultAK env m = GetSTSAK m) := by
  rw [GetDefaultAK_eq]
  constructor
  · intro h1 h2
    rw [if_neg]
    rintro (h | h) <;> contradiction
  · intro h
    rw [if_pos h]

/-- Witness for C1: a concrete environment with both keys set wins over
an STS-capable metadata service; the all-empty environment falls back. -/
theorem getDefaultAK_env_priority_witness :
    GetDefaultAK
        (fun s => if s = "ACCESS_KEY_ID" then "AKID"
          else if s = "ACCESS_KEY_SECRET" then "AKSEC" else "")
        ⟨some "role", fun _ => some ⟨"sid", "ssec", "stok"⟩⟩ = ("AKID", "AKSEC", "") ∧
    GetDefaultAK (fun _ => "") ⟨some "role", fun _ => some ⟨"sid", "ssec", "stok"⟩⟩ =
      GetSTSAK ⟨some "role", fun _ => some ⟨"sid", "ssec", "stok"⟩⟩ := by
  constructor
  · exact (getDefaultAK_env_priority _ _).1 (by decide) (by decide)
  · exact (getDefaultAK_env_priority _ _).2 (Or.inl rfl)

/-- C7: `GetDefaultAK` always yields one of the two triples (it cannot
fail), and when the environment is empty and every metadata step fails
it yields the empty triple. -/
theorem getDefaultAK_total_failure (env : String → String) (m : MetaSvc) :
    (GetDefaultAK env m = (env "ACCESS_KEY_ID", env "ACCESS_KEY_SECRET", "") ∨
      GetDefaultAK env m = GetSTSAK m) ∧
    (env "ACCESS_KEY_ID" = "" → env "ACCESS_KEY_SECRET" = "" →
      (m.role = none ∨ ∀ n, m.ramRoleToken n = none) →
      GetDefaultAK env m = ("", "", "")) := by
  rw [GetDefaultAK_eq]
  constructor
  · by_cases h : env "ACCESS_KEY_ID" = "" ∨ env "ACCESS_KEY_SECRET" = ""
    · right; rw [if_pos h]
    · left; rw [if_neg h]
  · intro h1 h2 h3
    rw [if_pos (Or.inl h1)]
    rcases h3 with h3 | h3
    · simp [GetSTSAK, h3]
    · cases hr : m.role with
      | none => simp [GetSTSAK, hr]
      | some rn => simp [GetSTSAK, hr, h3]

/-- Witness for C7: empty environment, role lookup failing. -/
theorem getDefaultAK_total_failure_witness :
    GetDefaultAK (fun _ => "") ⟨none, fun _ => none⟩ = ("", "", "") :=
  (getDefaultAK_total_failure _ _).2 rfl rfl (Or.inl rfl)

/-- C4: `updateEcsClent` returns the given client unchanged when the
resolved credentials carry no session token, and rebuilds the client
from the resolved triple exactly when the token is non-empty. -/
theorem updateEcsClent_spec (env : String → String) (m : MetaSvc)
    (client : Option EcsClient) :
    ((GetDefaultAK env m).2.2 = "" → updateEcsClent env m client = client) ∧
    ((GetDefaultAK env m).2.2 ≠ "" →
      updateEcsClent env m client =
        newEcsClient (GetDefaultAK env m).1 (GetDefaultAK env m).2.1
          (GetDefaultAK env m).2.2) := by
  constructor
  · intro h; simp [updateEcsClent, h]
  · intro h; simp [updateEcsClent, h]

/-- Witness for C4: static environment keys leave the client untouched;
an STS-only configuration rebuilds it from the STS triple. -/
theorem updateEcsClent_spec_witness :
    updateEcsClent
        (fun s => if s = "ACCESS_KEY_ID" then "AKID"
          else if s = "ACCESS_KEY_SECRET" then "AKSEC" else "")
        ⟨none, fun _ => none⟩ none = none ∧
    updateEcsClent (fun _ => "") ⟨some "r", fun _ => some ⟨"sid", "ssec", "stok"⟩⟩ none =
      newEcsClient "sid" "ssec" "stok" := by
  constructor
  · exact (updateEcsClent_spec _ _ none).1 rfl
  · exact (updateEcsClent_spec _ _ none).2 (by decide)

/-- C3 counterexample: a reachable response with status 404 and readable
body makes `GetMetaData` return the body, not the empty string — the
status code is never checked. -/
theorem getMetaData_counterexample :
    GetMetaData (fun _ => some ⟨404, some "not found"⟩) "zone-id" = "not found" ∧
    (404 : Nat) ≠ 200 ∧ ("not found" : String) ≠ "" :=
  ⟨rfl, by decide, by decide⟩

/-- C3 (amended): `GetMetaData` returns the empty string exactly on a
network-level failure or a failed body read; on any response with a
readable body it returns that body, whatever the status code. -/
theorem getMetaData_spec (g : HttpGet) (resource : String) :
    (g (METADATA_URL ++ resource) = none → GetMetaData g resource = "") ∧
    (∀ resp, g (METADATA_URL ++ resource) = some resp → resp.Body = none →
      GetMetaData g resource = "") ∧
    (∀ resp body, g (METADATA_URL ++ resource) = some resp → resp.Body = some body →
      GetMetaData g resource = body) := by
  refine ⟨fun h => ?_, fun resp h hb => ?_, fun resp body h hb => ?_⟩
  · simp [GetMetaData, h]
  · simp [GetMetaData, h, hb]
  · simp [GetMetaData, h, hb]

/-- Witness for C3: the three branches at concrete behaviours. -/
theorem getMetaData_spec_witness :
    GetMetaData (fun _ => none) "zone-id" = "" ∧
    GetMetaData (fun _ => some ⟨200, none⟩) "zone-id" = "" ∧
    GetMetaData (fun _ => some ⟨200, some "cn-a"⟩) "zone-id" = "cn-a" :=
  ⟨(getMetaData_spec _ _).1 rfl,
   (getMetaData_spec _ _).2.1 ⟨200, none⟩ rfl rfl,
   (getMetaData_spec _ _).2.2 ⟨200, some "cn-a"⟩ "cn-a" rfl rfl⟩

/-- C2: whenever `fsType` is present with a value other than exactly
`ext3` or `ext4`, or `type` is present with a value outside the four
disk categories, `getDiskVolumeOptions` returns an error and so no
(partial) request value. -/
theorem getDiskVolumeOptions_invalid_errors (g : HttpGet)
    (opts : String → Option String) :
    (∀ v, opts "fsType" = some v → v ≠ "ext3" → v ≠ "ext4" →
      ∃ e, getDiskVolumeOptions g opts = Except.error e) ∧
    (∀ v, opts "type" = some v → v ≠ DISK_HIGH_AVAIL → v ≠ DISK_COMMON →
      v ≠ DISK_EFFICIENCY → v ≠ DISK_SSD →
      ∃ e, getDiskVolumeOptions g opts = Except.error e) := by
  constructor
  · intro v hv h3 h4
    cases hres : getDiskVolumeOptions g opts with
    | error e => exact ⟨e, rfl⟩
    | ok r =>
      rcases (getDiskVolumeOptions_ok_iff g opts r).mp hres with ⟨hf, -, -⟩
      rw [hv] at hf
      simp only [Option.getD_some] at hf
      rcases hf with hf | hf
      · exact absurd hf h4
      · exact absurd hf h3
  · intro v hv h1 h2 h3 h4
    cases hres : getDiskVolumeOptions g opts with
    | error e => exact ⟨e, rfl⟩
    | ok r =>
      rcases (getDiskVolumeOptions_ok_iff g opts r).mp hres with ⟨-, ht, -⟩
      rw [hv] at ht
      simp only [Option.getD_some] at ht
      rcases ht with ht | ht | ht | ht
      · exact absurd ht h1
      · exact absurd ht h2
      · exact absurd ht h3
      · exact absurd ht h4

/-- Witness for C2: `fsType = "xfs"` and `type = "cloud_unknown"` are
both rejected. -/
theorem getDiskVolumeOptions_invalid_errors_witness :
    (∃ e, getDiskVolumeOptions (fun _ => none)
        (fun k => if k = "fsType" then some "xfs" else none) = Except.error e) ∧
    (∃ e, getDiskVolumeOptions (fun _ => none)
        (fun k => if k = "type" then some "cloud_unknown" else none) = Except.error e) := by
  constructor
  · exact (getDiskVolumeOptions_invalid_errors _ _).1 "xfs" rfl (by decide) (by decide)
  · exact (getDiskVolumeOptions_invalid_errors _ _).2 "cloud_unknown" rfl
      (by decide) (by decide) (by decide) (by decide)

/-- C5 counterexample: with no `zoneId`/`regionId` option and a failing
metadata endpoint the parse still succeeds, with both fields empty. -/
theorem getDiskVolumeOptions_empty_zone_counterexample :
    getDiskVolumeOptions (fun _ => none)
        (fun k => if k = "fsType" then some "ext4" else none) =
      Except.ok ⟨"", "", "ext4", "available", false, false⟩ ∧
    (diskVolumeArgs.mk "" "" "ext4" "available" false false).ZoneId = "" ∧
    (diskVolumeArgs.mk "" "" "ext4" "available" false false).RegionId = "" :=
  ⟨rfl, rfl, rfl⟩

/-- C5 (amended): on every successful parse the zone and region fields
equal the caller-supplied option when present and otherwise the
instance-metadata lookup — which may itself be empty, since emptiness
is never validated. -/
theorem getDiskVolumeOptions_zone_region (g : HttpGet)
    (opts : String → Option String) (r : diskVolumeArgs)
    (h : getDiskVolumeOptions g opts = Except.ok r) :
    r.ZoneId = (opts "zoneId").getD (GetMetaData g ZONEID_TAG) ∧
    r.RegionId = (opts "regionId").getD (GetMetaData g REGIONID_TAG) := by
  rcases (getDiskVolumeOptions_ok_iff g opts r).mp h with ⟨-, -, rfl⟩
  exact ⟨rfl, rfl⟩

/-- Witness for C5 (amended): omitted zone/region resolve to the
metadata answer. -/
theorem getDiskVolumeOptions_zone_region_witness :
    (diskVolumeArgs.mk "cn-b" "cn-b" "ext4" "available" false false).ZoneId =
      ((fun _ : String => (none : Option String)) "zoneId").getD
        (GetMetaData (fun _ => some ⟨200, some "cn-b"⟩) ZONEID_TAG) ∧
    (diskVolumeArgs.mk "cn-b" "cn-b" "ext4" "available" false false).RegionId =
      ((fun _ : String => (none : Option String)) "regionId").getD
        (GetMetaData (fun _ => some ⟨200, some "cn-b"⟩) REGIONID_TAG) :=
  getDiskVolumeOptions_zone_region (fun _ => some ⟨200, some "cn-b"⟩)
    (fun _ => none) (diskVolumeArgs.mk "cn-b" "cn-b" "ext4" "available" false false) rfl

/-- C6: on a successful parse, `ReadOnly` (resp. `Encrypted`) is true
exactly when the corresponding key is present and its lowercased value
is `yes`, `true` or `1`; and overriding either key with any value at
all still parses successfully. -/
theorem getDiskVolumeOptions_flags (g : HttpGet) (opts : String → Option String)
    (r : diskVolumeArgs) (v : String)
    (h : getDiskVolumeOptions g opts = Except.ok r) :
    (r.ReadOnly = true ↔ ∃ s, opts "readOnly" = some s ∧
      (strToLower s = "yes" ∨ strToLower s = "true" ∨ strToLower s = "1")) ∧
    (r.Encrypted = true ↔ ∃ s, opts "encrypted" = some s ∧
      (strToLower s = "yes" ∨ strToLower s = "true" ∨ strToLower s = "1")) ∧
    (∃ r2, getDiskVolumeOptions g (updateKey opts "readOnly" v) = Except.ok r2) ∧
    (∃ r2, getDiskVolumeOptions g (updateKey opts "encrypted" v) = Except.ok r2) := by
  rcases (getDiskVolumeOptions_ok_iff g opts r).mp h with ⟨hf, ht, rfl⟩
  refine ⟨parseFlag_true_iff _, parseFlag_true_iff _, ?_, ?_⟩
  · exact ⟨_, (getDiskVolumeOptions_ok_iff g (updateKey opts "readOnly" v) _).mpr
      ⟨hf, ht, rfl⟩⟩
  · exact ⟨_, (getDiskVolumeOptions_ok_iff g (updateKey opts "encrypted" v) _).mpr
      ⟨hf, ht, rfl⟩⟩

/-- Witness for C6: `readOnly = "True"` parses as a read-only request. -/
theorem getDiskVolumeOptions_flags_witness :
    (diskVolumeArgs.mk "" "" "ext4" "available" true false).ReadOnly = true :=
  ((getDiskVolumeOptions_flags (fun _ => none)
      (fun k => if k = "readOnly" then some "True" else none)
      (diskVolumeArgs.mk "" "" "ext4" "available" true false) "1" rfl).1).mpr
    ⟨"True", rfl, Or.inr (Or.inl (by decide))⟩

/-- C8: parsing the canonical serialization of a successfully parsed
request yields the same request, under any metadata behaviour. -/
theorem getDiskVolumeOptions_idempotent (g g2 : HttpGet)
    (opts : String → Option String) (r : diskVolumeArgs)
    (h : getDiskVolumeOptions g opts = Except.ok r) :
    getDiskVolumeOptions g2 (canonicalOptions r) = Except.ok r := by
  rcases (getDiskVolumeOptions_ok_iff g opts r).mp h with ⟨hf, ht, rfl⟩
  refine (getDiskVolumeOptions_ok_iff g2 _ _).mpr ⟨hf, ht, ?_⟩
  simp only [diskVolumeArgs.mk.injEq]
  exact ⟨rfl, rfl, rfl, rfl, (parseFlag_roundtrip _).symm, (parseFlag_roundtrip _).symm⟩

/-- Witness for C8: a fully explicit request round-trips. -/
theorem getDiskVolumeOptions_idempotent_witness :
    getDiskVolumeOptions (fun _ => none)
        (canonicalOptions ⟨"z", "r", "ext3", "cloud_ssd", true, false⟩) =
      Except.ok ⟨"z", "r", "ext3", "cloud_ssd", true, false⟩ :=
  getDiskVolumeOptions_idempotent (fun _ => some ⟨200, some "z"⟩) (fun _ => none)
    (fun k => if k = "zoneId" then some "z" else if k = "regionId" then some "r"
      else if k = "fsType" then some "ext3" else if k = "type" then some "cloud_ssd"
      else if k = "readOnly" then some "yes" else none)
    ⟨"z", "r", "ext3", "cloud_ssd", true, false⟩ rfl

/-- C10: `GetDeviceMountNum` returns 0 on a failure of either shell
step and on an unparseable count, indistinguishable from zero mounts. -/
theorem getDeviceMountNum_never_errors (runCmd : Runner) (targetPath : String) :
    (runCmd (ShellCmd.listDeviceCmd targetPath) = none →
      GetDeviceMountNum runCmd targetPath = 0) ∧
    (∀ s, runCmd (ShellCmd.listDeviceCmd targetPath) = some s →
      runCmd (ShellCmd.countMountCmd (trimSuffix s "\n")) = none →
      GetDeviceMountNum runCmd targetPath = 0) ∧
    (∀ s t, runCmd (ShellCmd.listDeviceCmd targetPath) = some s →
      runCmd (ShellCmd.countMountCmd (trimSuffix s "\n")) = some t →
      Atoi t = none → GetDeviceMountNum runCmd targetPath = 0) := by
  refine ⟨fun h => ?_, fun s h1 h2 => ?_, fun s t h1 h2 h3 => ?_⟩
  · simp [GetDeviceMountNum, h]
  · simp [GetDeviceMountNum, h1, h2]
  · simp [GetDeviceMountNum, h1, h2, h3]

/-- Witness for C10: first step failing, second step failing, and the
real-world `wc -l` output `"2\n"`, which `Atoi` rejects. -/
theorem getDeviceMountNum_never_errors_witness :
    GetDeviceMountNum (fun _ => none) "/mnt/a" = 0 ∧
    GetDeviceMountNum
      (fun c => match c with
        | ShellCmd.listDeviceCmd _ => some "/dev/vdb\n"
        | ShellCmd.countMountCmd _ => none) "/mnt/a" = 0 ∧
    GetDeviceMountNum
      (fun c => match c with
        | ShellCmd.listDeviceCmd _ => some "/dev/vdb\n"
        | ShellCmd.countMountCmd _ => some "2\n") "/mnt/a" = 0 :=
  ⟨(getDeviceMountNum_never_errors _ _).1 rfl,
   (getDeviceMountNum_never_errors _ _).2.1 "/dev/vdb\n" rfl rfl,
   (getDeviceMountNum_never_errors _ _).2.2 "/dev/vdb\n" "2\n" rfl rfl (by decide)⟩

end CsiDisk
